import Mathlib

/-!
Shallow embedding of `src/generate_alerts.py` (Databricks security detection
alert generator).  The program is a one-shot code generator: it loads a YAML
configuration (`rules.yml`) with a `global` section and an ordered `alerts`
mapping, renders one `SELECT create_alert(...)` SQL statement per alert via
Python f-string interpolation, joins them with notebook-cell separators, and
writes the resulting document to a fixed path.

Modelling decisions:
* Values that Python interpolates with plain `str()` rendering
  (`warehouse_id`, `threshold_value`, `user_email`, string fields) are
  modelled as the `String` they render to.  `notify_on_ok` is a `Bool`
  because the source applies `str(...).lower()` to it; `retrigger_seconds`
  is a `Nat` rendered with `toString` (the source renders a YAML integer).
* `dict.get(key, default)` on optional keys becomes `Option.getD`.
* Python `str.format(catalog=..., schema=...)` is embedded as `pyFormat`,
  a single left-to-right scan that substitutes the two known fields,
  honours the `\x7b\x7b` / `\x7d\x7d` escapes, and fails (`none`) on any other
  brace use — mirroring the `KeyError` / `ValueError` that `str.format`
  raises there, which the source's top-level handler catches.
* Rendering failure therefore makes `generate_alert_sql` return `none`,
  and failures propagate through the batch renderer and the driver,
  matching the absence of per-item isolation in the source.
-/

set_option maxRecDepth 100000

/-- The single-quote character, written via its code point. -/
def sqChar : Char := Char.ofNat 39

/-- Global configuration record (the `global` section of `rules.yml`).
Fields are the rendered string forms of the YAML values, except
`notify_on_ok` (a boolean, lower-cased by the source) and
`retrigger_seconds` (an integer). `cron_schedule` is optional: the source
reads it with `global_config.get(..)`. -/
structure GlobalConfig where
  catalog : String
  schema : String
  warehouse_id : String
  user_email : String
  notify_on_ok : Bool
  retrigger_seconds : Nat
  timezone_id : String
  pause_status : String
  cron_schedule : Option String

/-- One alert rule (one entry of the `alerts` mapping). `empty_result_state`
and `cron_schedule` are optional: the source reads them with
`alert_config.get(..)`. -/
structure AlertRule where
  description : String
  display_name : String
  query_template : String
  comparison_operator : String
  threshold_value : String
  empty_result_state : Option String
  cron_schedule : Option String

/-- The parsed `rules.yml` document: the `global` section and the ordered
`alerts` mapping (YAML mappings preserve insertion order in the source). -/
structure Rules where
  global : GlobalConfig
  alerts : List (String × AlertRule)

/-- Embedding of Python `template.format(catalog=c, schema=s)`: scan the
template left to right; substitute the fields `\x7bcatalog\x7d` and
`\x7bschema\x7d`, turn `\x7b\x7b` and `\x7d\x7d` into literal braces, and fail on any
other occurrence of a brace, where `str.format` raises an exception. -/
def pyFormatF (c s : String) : Nat → List Char → Option (List Char)
  | _, [] => some []
  | 0, _ :: _ => none
  | fuel + 1, ch :: rest =>
      if ch = '{' then
        if rest.take 1 = ['{'] then
          (pyFormatF c s fuel (rest.drop 1)).map (fun t => '{' :: t)
        else if rest.take 8 = ("catalog".data ++ ['}']) then
          (pyFormatF c s fuel (rest.drop 8)).map (fun t => c.data ++ t)
        else if rest.take 7 = ("schema".data ++ ['}']) then
          (pyFormatF c s fuel (rest.drop 7)).map (fun t => s.data ++ t)
        else none
      else if ch = '}' then
        if rest.take 1 = ['}'] then
          (pyFormatF c s fuel (rest.drop 1)).map (fun t => '}' :: t)
        else none
      else (pyFormatF c s fuel rest).map (fun t => ch :: t)

/-- Entry point of the `str.format` embedding: run the scanner with enough
fuel (each step consumes at least one character, so `l.length` suffices). -/
def pyFormat (c s : String) (l : List Char) : Option (List Char) :=
  pyFormatF c s l.length l

/-- Embedding of Python `text.replace(squote, squote+squote)`: double every
single-quote character. -/
def escapeQuotes : List Char → List Char
  | [] => []
  | ch :: rest =>
      if ch = sqChar then sqChar :: sqChar :: escapeQuotes rest
      else ch :: escapeQuotes rest

/-- Embedding of Python `str(b).lower()` for a boolean `b`. -/
def pyBoolLower (b : Bool) : String := if b then "true" else "false"

/-- Embedding of `generate_alert_sql(alert_config, global_config)`: format
the query template with catalog and schema, then build the f-string, one
`++`-chunk per source line.  Returns `none` when the `.format` call raises
(caught only at top level in the source). -/
def generate_alert_sql (a : AlertRule) (g : GlobalConfig) : Option String :=
  match pyFormat g.catalog g.schema a.query_template.data with
  | none => none
  | some qt =>
      some ("-- " ++ a.description ++ "\n"
        ++ "SELECT create_alert(\n"
        ++ "  display_name => '" ++ a.display_name ++ "',\n"
        ++ "  query_text => '" ++ String.mk (escapeQuotes qt) ++ "',\n"
        ++ "  warehouse_id => " ++ g.warehouse_id ++ ",\n"
        ++ "  comparison_operator => '" ++ a.comparison_operator ++ "',\n"
        ++ "  threshold_value => " ++ a.threshold_value ++ ",\n"
        ++ "  empty_result_state => '" ++ a.empty_result_state.getD "UNKNOWN" ++ "',\n"
        ++ "  user_email => " ++ g.user_email ++ ",\n"
        ++ "  notify_on_ok => " ++ pyBoolLower g.notify_on_ok ++ ",\n"
        ++ "  retrigger_seconds => " ++ toString g.retrigger_seconds ++ ",\n"
        ++ "  cron_schedule => '" ++ a.cron_schedule.getD (g.cron_schedule.getD "0 0 10 1/7 * ?") ++ "',\n"
        ++ "  timezone_id => '" ++ g.timezone_id ++ "',\n"
        ++ "  pause_status => '" ++ g.pause_status ++ "'\n"
        ++ ") as alert;")

/-- The notebook cell separator token the batch renderer emits. -/
def commandSep : String := "-- COMMAND ----------"

/-- The fixed list the source seeds `sql_parts` with: the two-line header
comment, a blank line, a separator, and a blank line. -/
def headerParts : List String :=
  ["-- Databricks Security Detection Alerts",
   "-- Generated from rules.yml",
   "",
   commandSep,
   ""]

/-- The loop body of `generate_all_alerts_sql`: for each alert (in mapping
order) append its rendered SQL, a blank line, the separator, and a blank
line; a rendering failure propagates (the loop has no per-item handler). -/
def renderLoop (g : GlobalConfig) : List (String × AlertRule) → Option (List String)
  | [] => some []
  | (_, a) :: rest =>
      match generate_alert_sql a g with
      | none => none
      | some sql =>
          match renderLoop g rest with
          | none => none
          | some tail => some (sql :: "" :: commandSep :: "" :: tail)

/-- Renders every alert of the list, in order, one statement per entry;
fails as soon as one alert fails to render. -/
def renderEach (g : GlobalConfig) : List (String × AlertRule) → Option (List String)
  | [] => some []
  | p :: rest =>
      match generate_alert_sql p.2 g, renderEach g rest with
      | some sql, some ss => some (sql :: ss)
      | _, _ => none

/-- The four `sql_parts` entries the loop appends per alert: the statement,
a blank line, the separator, and a blank line. -/
def blocks (ss : List String) : List String :=
  ss.flatMap (fun sql => [sql, "", commandSep, ""])

/-- Embedding of `generate_all_alerts_sql(rules)`: seed `sql_parts` with the
header, run the loop over `rules.alerts`, and join with a newline. -/
def generate_all_alerts_sql (rules : Rules) : Option String :=
  match renderLoop rules.global rules.alerts with
  | none => none
  | some tail => some (String.intercalate "\n" (headerParts ++ tail))

/-- Outcome of `load_rules()` inside `main`'s `try` block: the file may be
missing (`FileNotFoundError`), malformed (`yaml.YAMLError`), or parsed. -/
inductive LoadResult where
  | fileNotFound
  | parseError (msg : String)
  | ok (rules : Rules)

/-- Observable outcome of one run of `main()`: the content written to
`src/generated_alerts.sql` (if any) and the first console message. -/
structure RunOutcome where
  written : Option String
  message : String

/-- Embedding of `main()` (named `mainRun` because `main` is reserved for an
entry point in Lean): load, render, and only then write; each of the
three `except` clauses prints its message and writes nothing. A rendering
failure is an exception raised before `open(output_file, 'w')` runs, so it
reaches the generic handler with no file written. -/
def mainRun (load : LoadResult) : RunOutcome :=
  match load with
  | .fileNotFound =>
      { written := none
        message := "Error: rules.yml not found. Please ensure the file exists in the current directory." }
  | .parseError msg =>
      { written := none
        message := "Error parsing YAML: " ++ msg }
  | .ok rules =>
      match generate_all_alerts_sql rules with
      | none =>
          { written := none
            message := "Unexpected error" }
      | some sql =>
          { written := some sql
            message := "Generated alerts SQL: src/generated_alerts.sql" }

/-- Executable substring test: `pat` occurs contiguously inside `s`. -/
def isSubstr (pat s : List Char) : Bool :=
  (List.range (s.length + 1)).any fun i => (s.drop i).take pat.length == pat

/-- String-level substring test, used to state the containment claims. -/
def strContains (s pat : String) : Bool := isSubstr pat.data s.data

/-- Statement template written from the specification's words (claim C1):
one `create_alert` call whose twelve arguments appear in this fixed order:
display_name, query_text, warehouse_id, comparison_operator,
threshold_value, empty_result_state, user_email, notify_on_ok,
retrigger_seconds, cron_schedule, timezone_id, pause_status.  Arguments are
single-quoted exactly where the source quotes them. -/
def create_alert_call (display_name query_text warehouse_id
    comparison_operator threshold_value empty_result_state user_email
    notify_on_ok retrigger_seconds cron_schedule timezone_id
    pause_status : String) : String :=
  "SELECT create_alert(\n"
    ++ "  display_name => '" ++ display_name ++ "',\n"
    ++ "  query_text => '" ++ query_text ++ "',\n"
    ++ "  warehouse_id => " ++ warehouse_id ++ ",\n"
    ++ "  comparison_operator => '" ++ comparison_operator ++ "',\n"
    ++ "  threshold_value => " ++ threshold_value ++ ",\n"
    ++ "  empty_result_state => '" ++ empty_result_state ++ "',\n"
    ++ "  user_email => " ++ user_email ++ ",\n"
    ++ "  notify_on_ok => " ++ notify_on_ok ++ ",\n"
    ++ "  retrigger_seconds => " ++ retrigger_seconds ++ ",\n"
    ++ "  cron_schedule => '" ++ cron_schedule ++ "',\n"
    ++ "  timezone_id => '" ++ timezone_id ++ "',\n"
    ++ "  pause_status => '" ++ pause_status ++ "'\n"
    ++ ") as alert;"

/-- Concrete global configuration (the scenario of the specification). -/
def exGlobal : GlobalConfig :=
  { catalog := "sec", schema := "detect", warehouse_id := "123",
    user_email := "a@b.com", notify_on_ok := true, retrigger_seconds := 600,
    timezone_id := "UTC", pause_status := "UNPAUSED", cron_schedule := none }

/-- Concrete alert rule (the scenario of the specification). -/
def exRule : AlertRule :=
  { description := "d", display_name := "n",
    query_template := "SELECT * FROM {catalog}.{schema}.t",
    comparison_operator := ">", threshold_value := "5",
    empty_result_state := none, cron_schedule := none }

/-- Concrete configuration with a single alert. -/
def exRules : Rules := { global := exGlobal, alerts := [("ex_alert", exRule)] }

/-- Concrete configuration with an empty `alerts` mapping. -/
def emptyRules : Rules := { global := exGlobal, alerts := [] }

/-- Alert rule whose query template contains a single quote. -/
def quoteRule : AlertRule :=
  { description := "d", display_name := "n",
    query_template := "SELECT 1 WHERE a = 'x'",
    comparison_operator := ">", threshold_value := "5",
    empty_result_state := none, cron_schedule := none }

/-- Global configuration whose catalog value contains a single quote. -/
def cexGlobal : GlobalConfig :=
  { catalog := "a'b", schema := "detect", warehouse_id := "123",
    user_email := "e", notify_on_ok := true, retrigger_seconds := 600,
    timezone_id := "UTC", pause_status := "UNPAUSED", cron_schedule := none }

/-- Alert rule whose query template is just the catalog placeholder. -/
def cexRule : AlertRule :=
  { description := "d", display_name := "n",
    query_template := "SELECT * FROM {catalog}.t",
    comparison_operator := ">", threshold_value := "5",
    empty_result_state := none, cron_schedule := none }

/-- Alert rule whose query template has an unclosed brace, so rendering
fails (Python `str.format` raises a `ValueError` on it). -/
def failRule : AlertRule :=
  { description := "d", display_name := "n",
    query_template := "SELECT \x7b",
    comparison_operator := ">", threshold_value := "5",
    empty_result_state := none, cron_schedule := none }

/-- Configuration whose single alert fails to render. -/
def failRules : Rules := { global := exGlobal, alerts := [("bad", failRule)] }

/-- Alert rule whose display name contains a single quote. -/
def vRule : AlertRule :=
  { description := "d", display_name := "n'x",
    query_template := "SELECT * FROM {catalog}.{schema}.t",
    comparison_operator := ">", threshold_value := "5",
    empty_result_state := none, cron_schedule := none }

/-- The statement the source renders for `quoteRule` under `exGlobal`: the
quote of the template is doubled inside the query_text literal. -/
def quoteSql : String := "-- d\nSELECT create_alert(\n  display_name => 'n',\n  query_text => 'SELECT 1 WHERE a = ''x''',\n  warehouse_id => 123,\n  comparison_operator => '>',\n  threshold_value => 5,\n  empty_result_state => 'UNKNOWN',\n  user_email => a@b.com,\n  notify_on_ok => true,\n  retrigger_seconds => 600,\n  cron_schedule => '0 0 10 1/7 * ?',\n  timezone_id => 'UTC',\n  pause_status => 'UNPAUSED'\n) as alert;"

/-- The statement the source renders for `cexRule` under `cexGlobal`: the
catalog value `a'b` reaches the statement only with its quote doubled. -/
def cexSql : String := "-- d\nSELECT create_alert(\n  display_name => 'n',\n  query_text => 'SELECT * FROM a''b.t',\n  warehouse_id => 123,\n  comparison_operator => '>',\n  threshold_value => 5,\n  empty_result_state => 'UNKNOWN',\n  user_email => e,\n  notify_on_ok => true,\n  retrigger_seconds => 600,\n  cron_schedule => '0 0 10 1/7 * ?',\n  timezone_id => 'UTC',\n  pause_status => 'UNPAUSED'\n) as alert;"

/-- The statement the source renders for `vRule` under `exGlobal`: the
quote of the display name is embedded verbatim, not doubled. -/
def vSql : String := "-- d\nSELECT create_alert(\n  display_name => 'n'x',\n  query_text => 'SELECT * FROM sec.detect.t',\n  warehouse_id => 123,\n  comparison_operator => '>',\n  threshold_value => 5,\n  empty_result_state => 'UNKNOWN',\n  user_email => a@b.com,\n  notify_on_ok => true,\n  retrigger_seconds => 600,\n  cron_schedule => '0 0 10 1/7 * ?',\n  timezone_id => 'UTC',\n  pause_status => 'UNPAUSED'\n) as alert;"

/-- The statement the source renders for `exRule` under `exGlobal` (checked
below against `generate_alert_sql`). -/
def exSql : String := "-- d\nSELECT create_alert(\n  display_name => 'n',\n  query_text => 'SELECT * FROM sec.detect.t',\n  warehouse_id => 123,\n  comparison_operator => '>',\n  threshold_value => 5,\n  empty_result_state => 'UNKNOWN',\n  user_email => a@b.com,\n  notify_on_ok => true,\n  retrigger_seconds => 600,\n  cron_schedule => '0 0 10 1/7 * ?',\n  timezone_id => 'UTC',\n  pause_status => 'UNPAUSED'\n) as alert;"

/-- The document the source produces for `exRules` (checked below against
`generate_all_alerts_sql`). -/
def exDoc : String := "-- Databricks Security Detection Alerts\n-- Generated from rules.yml\n\n-- COMMAND ----------\n\n" ++ exSql ++ "\n\n-- COMMAND ----------\n"

example : pyFormat "sec" "detect" "SELECT * FROM {catalog}.{schema}.t".data
    = some "SELECT * FROM sec.detect.t".data := by decide

example : generate_alert_sql exRule exGlobal = some exSql := by decide

example : generate_all_alerts_sql exRules = some exDoc := by decide

example : generate_alert_sql failRule exGlobal = none := by decide

example : escapeQuotes "ab".data = "ab".data := by decide

example : strContains "abcde" "bcd" = true := by decide

example : strContains "abcde" "bd" = false := by decide

/-- Characterisation of `isSubstr`: the boolean scan succeeds exactly when
the text splits around the pattern. -/
theorem isSubstr_iff (pat s : List Char) :
    isSubstr pat s = true ↔ ∃ l r, s = l ++ (pat ++ r) := by
  unfold isSubstr
  rw [List.any_eq_true]
  constructor
  · rintro ⟨i, hi, hEq⟩
    rw [beq_iff_eq] at hEq
    refine ⟨s.take i, (s.drop i).drop pat.length, ?_⟩
    calc s = s.take i ++ s.drop i := (List.take_append_drop i s).symm
    _ = s.take i ++ ((s.drop i).take pat.length ++ (s.drop i).drop pat.length) := by
          rw [List.take_append_drop pat.length (s.drop i)]
    _ = s.take i ++ (pat ++ (s.drop i).drop pat.length) := by rw [hEq]
  · rintro ⟨l, r, rfl⟩
    refine ⟨l.length, ?_, ?_⟩
    · rw [List.mem_range]
      simp [List.length_append]
      omega
    · rw [beq_iff_eq, List.drop_left, List.take_left]

/-- Substring containment is transitive. -/
theorem isSubstr_trans {a b c : List Char}
    (h1 : isSubstr a b = true) (h2 : isSubstr b c = true) :
    isSubstr a c = true := by
  rw [isSubstr_iff] at h1 h2 ⊢
  obtain ⟨l1, r1, rfl⟩ := h1
  obtain ⟨l2, r2, rfl⟩ := h2
  exact ⟨l2 ++ l1, r1 ++ r2, by simp [List.append_assoc]⟩

/-- A string of the shape `l ++ (pat ++ r)` contains `pat`. -/
theorem strContains_append (l pat r : String) :
    strContains (l ++ (pat ++ r)) pat = true := by
  rw [strContains, isSubstr_iff]
  exact ⟨l.data, r.data, by simp [String.data_append]⟩

/-- Containment through an intermediate chunk of the text. -/
theorem strContains_trans {s c p : String}
    (h1 : strContains s c = true) (h2 : strContains c p = true) :
    strContains s p = true :=
  isSubstr_trans h2 h1

/-- Quote escaping distributes over append. -/
theorem escapeQuotes_append (u v : List Char) :
    escapeQuotes (u ++ v) = escapeQuotes u ++ escapeQuotes v := by
  induction u with
  | nil => simp [escapeQuotes]
  | cons ch rest ih => by_cases h : ch = sqChar <;> simp [escapeQuotes, h, ih]

/-- Each single quote of the input becomes two adjacent single quotes, in
place, in the escaped output. -/
theorem escapeQuotes_doubles (u v : List Char) :
    escapeQuotes (u ++ sqChar :: v)
      = escapeQuotes u ++ sqChar :: sqChar :: escapeQuotes v := by
  rw [escapeQuotes_append]
  simp [escapeQuotes]

/-- A text containing a single quote escapes to a text containing two
consecutive single quotes. -/
theorem escapeQuotes_has_doubled {l : List Char} (h : sqChar ∈ l) :
    isSubstr [sqChar, sqChar] (escapeQuotes l) = true := by
  obtain ⟨u, v, rfl⟩ := List.append_of_mem h
  rw [escapeQuotes_doubles, isSubstr_iff]
  exact ⟨escapeQuotes u, escapeQuotes v, by simp⟩

/-- The format scanner never drops a single-quote character: quotes of the
template survive into the formatted text. -/
theorem pyFormatF_sq_mem (c s : String) :
    ∀ fuel l out, pyFormatF c s fuel l = some out → sqChar ∈ l → sqChar ∈ out := by
  intro fuel
  induction fuel with
  | zero =>
      intro l out h hmem
      cases l with
      | nil => simp at hmem
      | cons ch rest => simp [pyFormatF] at h
  | succ fuel ih =>
      intro l out h hmem
      cases l with
      | nil => simp at hmem
      | cons ch rest =>
        rw [List.mem_cons] at hmem
        rw [pyFormatF] at h
        by_cases h1 : ch = '{'
        · rw [if_pos h1] at h
          have hne : sqChar ∈ rest := by
            rcases hmem with hmem | hmem
            · exact absurd (hmem.trans h1) (by decide)
            · exact hmem
          by_cases h2 : rest.take 1 = ['{']
          · rw [if_pos h2] at h
            rcases Option.map_eq_some'.mp h with ⟨t, ht, rfl⟩
            have hrest : rest = '{' :: rest.drop 1 := by
              conv_lhs => rw [← List.take_append_drop 1 rest]
              rw [h2]
              rfl
            have : sqChar ∈ rest.drop 1 := by
              rw [hrest, List.mem_cons] at hne
              rcases hne with hq | hq
              · exact absurd hq (by decide)
              · exact hq
            exact List.mem_cons_of_mem _ (ih _ t ht this)
          · rw [if_neg h2] at h
            by_cases h3 : rest.take 8 = ("catalog".data ++ ['}'])
            · rw [if_pos h3] at h
              rcases Option.map_eq_some'.mp h with ⟨t, ht, rfl⟩
              have : sqChar ∈ rest.drop 8 := by
                rw [← List.take_append_drop 8 rest, List.mem_append, h3] at hne
                rcases hne with hq | hq
                · exact absurd hq (by decide)
                · exact hq
              exact List.mem_append_right _ (ih _ t ht this)
            · rw [if_neg h3] at h
              by_cases h4 : rest.take 7 = ("schema".data ++ ['}'])
              · rw [if_pos h4] at h
                rcases Option.map_eq_some'.mp h with ⟨t, ht, rfl⟩
                have : sqChar ∈ rest.drop 7 := by
                  rw [← List.take_append_drop 7 rest, List.mem_append, h4] at hne
                  rcases hne with hq | hq
                  · exact absurd hq (by decide)
                  · exact hq
                exact List.mem_append_right _ (ih _ t ht this)
              · rw [if_neg h4] at h
                exact absurd h (by simp)
        · rw [if_neg h1] at h
          by_cases h5 : ch = '}'
          · rw [if_pos h5] at h
            have hne : sqChar ∈ rest := by
              rcases hmem with hmem | hmem
              · exact absurd (hmem.trans h5) (by decide)
              · exact hmem
            by_cases h6 : rest.take 1 = ['}']
            · rw [if_pos h6] at h
              rcases Option.map_eq_some'.mp h with ⟨t, ht, rfl⟩
              have hrest : rest = '}' :: rest.drop 1 := by
                conv_lhs => rw [← List.take_append_drop 1 rest]
                rw [h6]
                rfl
              have : sqChar ∈ rest.drop 1 := by
                rw [hrest, List.mem_cons] at hne
                rcases hne with hq | hq
                · exact absurd hq (by decide)
                · exact hq
              exact List.mem_cons_of_mem _ (ih _ t ht this)
            · rw [if_neg h6] at h
              exact absurd h (by simp)
          · rw [if_neg h5] at h
            rcases Option.map_eq_some'.mp h with ⟨t, ht, rfl⟩
            rcases hmem with hmem | hmem
            · exact hmem ▸ List.mem_cons_self _ _
            · exact List.mem_cons_of_mem _ (ih _ t ht hmem)

/-- Quotes of the query template survive `pyFormat`. -/
theorem pyFormat_sq_mem {c s : String} {l out : List Char}
    (h : pyFormat c s l = some out) (hmem : sqChar ∈ l) : sqChar ∈ out :=
  pyFormatF_sq_mem c s l.length l out h hmem

/-- Containment via an explicit split of the text. -/
theorem strContains_of_eq (L P R : String) {s : String}
    (h : s = L ++ (P ++ R)) : strContains s P = true := by
  rw [h]
  exact strContains_append L P R

/-- Fine-grained shape of a successfully rendered statement: the output of
`generate_alert_sql`, cut at every argument label and value boundary.  The
containment claims below are read off this decomposition. -/
theorem sql_shape (a : AlertRule) (g : GlobalConfig) (qt : List Char)
    (sql : String)
    (hfmt : pyFormat g.catalog g.schema a.query_template.data = some qt)
    (hsql : generate_alert_sql a g = some sql) :
    sql = "-- " ++ a.description ++ "\n" ++ "SELECT create_alert(\n"
      ++ "  " ++ "display_name => '" ++ a.display_name ++ "'" ++ ",\n"
      ++ "  " ++ "query_text => '" ++ String.mk (escapeQuotes qt) ++ "'" ++ ",\n"
      ++ "  " ++ "warehouse_id => " ++ g.warehouse_id ++ ",\n"
      ++ "  " ++ "comparison_operator => '" ++ a.comparison_operator ++ "'" ++ ",\n"
      ++ "  " ++ "threshold_value => " ++ a.threshold_value ++ ",\n"
      ++ "  " ++ "empty_result_state => '" ++ a.empty_result_state.getD "UNKNOWN" ++ "'" ++ ",\n"
      ++ "  " ++ "user_email => " ++ g.user_email ++ ",\n"
      ++ "  " ++ "notify_on_ok => " ++ pyBoolLower g.notify_on_ok ++ ",\n"
      ++ "  " ++ "retrigger_seconds => " ++ toString g.retrigger_seconds ++ ",\n"
      ++ "  " ++ "cron_schedule => '" ++ a.cron_schedule.getD (g.cron_schedule.getD "0 0 10 1/7 * ?") ++ "'" ++ ",\n"
      ++ "  " ++ "timezone_id => '" ++ g.timezone_id ++ "'" ++ ",\n"
      ++ "  " ++ "pause_status => '" ++ g.pause_status ++ "'" ++ "\n"
      ++ ") as alert;" := by
  unfold generate_alert_sql at hsql
  rw [hfmt] at hsql
  simp only [Option.some.injEq] at hsql
  subst hsql
  have e1 : ("  display_name => '" : String) = "  " ++ "display_name => '" := rfl
  have e2 : ("  query_text => '" : String) = "  " ++ "query_text => '" := rfl
  have e3 : ("  warehouse_id => " : String) = "  " ++ "warehouse_id => " := rfl
  have e4 : ("  comparison_operator => '" : String) = "  " ++ "comparison_operator => '" := rfl
  have e5 : ("  threshold_value => " : String) = "  " ++ "threshold_value => " := rfl
  have e6 : ("  empty_result_state => '" : String) = "  " ++ "empty_result_state => '" := rfl
  have e7 : ("  user_email => " : String) = "  " ++ "user_email => " := rfl
  have e8 : ("  notify_on_ok => " : String) = "  " ++ "notify_on_ok => " := rfl
  have e9 : ("  retrigger_seconds => " : String) = "  " ++ "retrigger_seconds => " := rfl
  have e10 : ("  cron_schedule => '" : String) = "  " ++ "cron_schedule => '" := rfl
  have e11 : ("  timezone_id => '" : String) = "  " ++ "timezone_id => '" := rfl
  have e12 : ("  pause_status => '" : String) = "  " ++ "pause_status => '" := rfl
  have e13 : ("',\n" : String) = "'" ++ ",\n" := rfl
  have e14 : ("'\n" : String) = "'" ++ "\n" := rfl
  simp only [e1, e2, e3, e4, e5, e6, e7, e8, e9, e10, e11, e12, e13, e14,
    String.append_assoc]

/-- Claim C1: for every alert rule and global config whose template
formats, the rendered statement invokes `create_alert` with its arguments
in exactly the fixed order display_name, query_text, warehouse_id,
comparison_operator, threshold_value, empty_result_state, user_email,
notify_on_ok, retrigger_seconds, cron_schedule, timezone_id, pause_status,
each bound from the corresponding rule or global field. -/
theorem claim_C1_argument_order (a : AlertRule) (g : GlobalConfig)
    (qt : List Char)
    (hfmt : pyFormat g.catalog g.schema a.query_template.data = some qt) :
    generate_alert_sql a g
      = some ("-- " ++ a.description ++ "\n"
          ++ create_alert_call a.display_name (String.mk (escapeQuotes qt))
              g.warehouse_id a.comparison_operator a.threshold_value
              (a.empty_result_state.getD "UNKNOWN") g.user_email
              (pyBoolLower g.notify_on_ok) (toString g.retrigger_seconds)
              (a.cron_schedule.getD (g.cron_schedule.getD "0 0 10 1/7 * ?"))
              g.timezone_id g.pause_status) := by
  unfold generate_alert_sql
  rw [hfmt]
  simp only [create_alert_call, Option.some.injEq, String.append_assoc]

/-- Witness for claim C1 at the specification's concrete scenario. -/
theorem claim_C1_argument_order_witness :
    pyFormat exGlobal.catalog exGlobal.schema exRule.query_template.data
        = some "SELECT * FROM sec.detect.t".data
    ∧ generate_alert_sql exRule exGlobal
      = some ("-- " ++ exRule.description ++ "\n"
          ++ create_alert_call exRule.display_name
              (String.mk (escapeQuotes "SELECT * FROM sec.detect.t".data))
              exGlobal.warehouse_id exRule.comparison_operator
              exRule.threshold_value
              (exRule.empty_result_state.getD "UNKNOWN") exGlobal.user_email
              (pyBoolLower exGlobal.notify_on_ok)
              (toString exGlobal.retrigger_seconds)
              (exRule.cron_schedule.getD (exGlobal.cron_schedule.getD "0 0 10 1/7 * ?"))
              exGlobal.timezone_id exGlobal.pause_status) :=
  ⟨by decide,
   claim_C1_argument_order exRule exGlobal
     "SELECT * FROM sec.detect.t".data (by decide)⟩

/-- Claim C4: the `empty_result_state` argument is the rule-level value
when supplied and the literal default UNKNOWN otherwise; when absent at the
rule level the statement contains `empty_result_state => 'UNKNOWN'`. -/
theorem claim_C4_empty_result_state (a : AlertRule) (g : GlobalConfig)
    (qt : List Char) (sql : String)
    (hfmt : pyFormat g.catalog g.schema a.query_template.data = some qt)
    (hsql : generate_alert_sql a g = some sql) :
    strContains sql
      ("empty_result_state => '" ++ a.empty_result_state.getD "UNKNOWN" ++ "'") = true
    ∧ (a.empty_result_state = none →
        strContains sql "empty_result_state => 'UNKNOWN'" = true) := by
  have hs := sql_shape a g qt sql hfmt hsql
  have main : strContains sql
      ("empty_result_state => '" ++ a.empty_result_state.getD "UNKNOWN" ++ "'") = true := by
    refine strContains_of_eq
      ("-- " ++ a.description ++ "\n" ++ "SELECT create_alert(\n"
        ++ "  " ++ "display_name => '" ++ a.display_name ++ "'" ++ ",\n"
        ++ "  " ++ "query_text => '" ++ String.mk (escapeQuotes qt) ++ "'" ++ ",\n"
        ++ "  " ++ "warehouse_id => " ++ g.warehouse_id ++ ",\n"
        ++ "  " ++ "comparison_operator => '" ++ a.comparison_operator ++ "'" ++ ",\n"
        ++ "  " ++ "threshold_value => " ++ a.threshold_value ++ ",\n"
        ++ "  ")
      _
      (",\n"
        ++ "  " ++ "user_email => " ++ g.user_email ++ ",\n"
        ++ "  " ++ "notify_on_ok => " ++ pyBoolLower g.notify_on_ok ++ ",\n"
        ++ "  " ++ "retrigger_seconds => " ++ toString g.retrigger_seconds ++ ",\n"
        ++ "  " ++ "cron_schedule => '" ++ a.cron_schedule.getD (g.cron_schedule.getD "0 0 10 1/7 * ?") ++ "'" ++ ",\n"
        ++ "  " ++ "timezone_id => '" ++ g.timezone_id ++ "'" ++ ",\n"
        ++ "  " ++ "pause_status => '" ++ g.pause_status ++ "'" ++ "\n"
        ++ ") as alert;")
      ?_
    rw [hs]
    simp only [String.append_assoc]
  refine ⟨main, fun h => ?_⟩
  rw [h] at main
  exact main

/-- Witness for claim C4: the example rule has no `empty_result_state`, and
its rendered statement contains the default literal. -/
theorem claim_C4_empty_result_state_witness :
    exRule.empty_result_state = none
    ∧ strContains exSql "empty_result_state => 'UNKNOWN'" = true :=
  ⟨rfl,
   (claim_C4_empty_result_state exRule exGlobal
     "SELECT * FROM sec.detect.t".data exSql (by decide) (by decide)).2 rfl⟩

/-- Claim C2: the emitted query_text literal is the query_template with the
catalog and schema placeholders substituted first, then every single quote
doubled, embedded in a single-quoted literal; for a template containing a
single quote, the statement contains two consecutive single quotes. -/
theorem claim_C2_query_text_escaping (a : AlertRule) (g : GlobalConfig)
    (qt : List Char) (sql : String)
    (hfmt : pyFormat g.catalog g.schema a.query_template.data = some qt)
    (hsql : generate_alert_sql a g = some sql) :
    strContains sql ("query_text => '" ++ String.mk (escapeQuotes qt) ++ "'") = true
    ∧ (sqChar ∈ a.query_template.data →
        strContains sql (String.mk [sqChar, sqChar]) = true) := by
  have hs := sql_shape a g qt sql hfmt hsql
  have main : strContains sql
      ("query_text => '" ++ String.mk (escapeQuotes qt) ++ "'") = true := by
    refine strContains_of_eq
      ("-- " ++ a.description ++ "\n" ++ "SELECT create_alert(\n"
        ++ "  " ++ "display_name => '" ++ a.display_name ++ "'" ++ ",\n"
        ++ "  ")
      _
      (",\n"
        ++ "  " ++ "warehouse_id => " ++ g.warehouse_id ++ ",\n"
        ++ "  " ++ "comparison_operator => '" ++ a.comparison_operator ++ "'" ++ ",\n"
        ++ "  " ++ "threshold_value => " ++ a.threshold_value ++ ",\n"
        ++ "  " ++ "empty_result_state => '" ++ a.empty_result_state.getD "UNKNOWN" ++ "'" ++ ",\n"
        ++ "  " ++ "user_email => " ++ g.user_email ++ ",\n"
        ++ "  " ++ "notify_on_ok => " ++ pyBoolLower g.notify_on_ok ++ ",\n"
        ++ "  " ++ "retrigger_seconds => " ++ toString g.retrigger_seconds ++ ",\n"
        ++ "  " ++ "cron_schedule => '" ++ a.cron_schedule.getD (g.cron_schedule.getD "0 0 10 1/7 * ?") ++ "'" ++ ",\n"
        ++ "  " ++ "timezone_id => '" ++ g.timezone_id ++ "'" ++ ",\n"
        ++ "  " ++ "pause_status => '" ++ g.pause_status ++ "'" ++ "\n"
        ++ ") as alert;")
      ?_
    rw [hs]
    simp only [String.append_assoc]
  refine ⟨main, fun hq => ?_⟩
  have hq2 : sqChar ∈ qt := pyFormat_sq_mem hfmt hq
  have hesc : strContains (String.mk (escapeQuotes qt))
      (String.mk [sqChar, sqChar]) = true :=
    escapeQuotes_has_doubled hq2
  have hmid : strContains ("query_text => '" ++ String.mk (escapeQuotes qt) ++ "'")
      (String.mk (escapeQuotes qt)) = true :=
    strContains_of_eq "query_text => '" (String.mk (escapeQuotes qt)) "'"
      (by simp only [String.append_assoc])
  exact strContains_trans (strContains_trans main hmid) hesc

/-- Witness for claim C2: a template with a single quote renders to a
statement containing two consecutive single quotes. -/
theorem claim_C2_query_text_escaping_witness :
    sqChar ∈ quoteRule.query_template.data
    ∧ strContains quoteSql (String.mk [sqChar, sqChar]) = true :=
  ⟨by decide,
   (claim_C2_query_text_escaping quoteRule exGlobal
      "SELECT 1 WHERE a = 'x'".data quoteSql (by decide) (by decide)).2
     (by decide)⟩

/-- Claim C3: the `cron_schedule` argument is the rule-level value, else
the global-level value, else the literal default `0 0 10 1/7 * ?`; when
absent at both levels the statement contains the default expression. -/
theorem claim_C3_cron_schedule (a : AlertRule) (g : GlobalConfig)
    (qt : List Char) (sql : String)
    (hfmt : pyFormat g.catalog g.schema a.query_template.data = some qt)
    (hsql : generate_alert_sql a g = some sql) :
    strContains sql
      ("cron_schedule => '"
        ++ a.cron_schedule.getD (g.cron_schedule.getD "0 0 10 1/7 * ?")
        ++ "'") = true
    ∧ (a.cron_schedule = none → g.cron_schedule = none →
        strContains sql "0 0 10 1/7 * ?" = true) := by
  have hs := sql_shape a g qt sql hfmt hsql
  have main : strContains sql
      ("cron_schedule => '"
        ++ a.cron_schedule.getD (g.cron_schedule.getD "0 0 10 1/7 * ?")
        ++ "'") = true := by
    refine strContains_of_eq
      ("-- " ++ a.description ++ "\n" ++ "SELECT create_alert(\n"
        ++ "  " ++ "display_name => '" ++ a.display_name ++ "'" ++ ",\n"
        ++ "  " ++ "query_text => '" ++ String.mk (escapeQuotes qt) ++ "'" ++ ",\n"
        ++ "  " ++ "warehouse_id => " ++ g.warehouse_id ++ ",\n"
        ++ "  " ++ "comparison_operator => '" ++ a.comparison_operator ++ "'" ++ ",\n"
        ++ "  " ++ "threshold_value => " ++ a.threshold_value ++ ",\n"
        ++ "  " ++ "empty_result_state => '" ++ a.empty_result_state.getD "UNKNOWN" ++ "'" ++ ",\n"
        ++ "  " ++ "user_email => " ++ g.user_email ++ ",\n"
        ++ "  " ++ "notify_on_ok => " ++ pyBoolLower g.notify_on_ok ++ ",\n"
        ++ "  " ++ "retrigger_seconds => " ++ toString g.retrigger_seconds ++ ",\n"
        ++ "  ")
      _
      (",\n"
        ++ "  " ++ "timezone_id => '" ++ g.timezone_id ++ "'" ++ ",\n"
        ++ "  " ++ "pause_status => '" ++ g.pause_status ++ "'" ++ "\n"
        ++ ") as alert;")
      ?_
    rw [hs]
    simp only [String.append_assoc]
  refine ⟨main, fun h1 h2 => ?_⟩
  rw [h1, h2] at main
  exact strContains_trans main (by decide)

/-- Witness for claim C3: the example configuration supplies no cron
schedule at either level and its statement contains the default. -/
theorem claim_C3_cron_schedule_witness :
    exRule.cron_schedule = none ∧ exGlobal.cron_schedule = none
    ∧ strContains exSql "0 0 10 1/7 * ?" = true :=
  ⟨rfl, rfl,
   (claim_C3_cron_schedule exRule exGlobal
      "SELECT * FROM sec.detect.t".data exSql (by decide) (by decide)).2
     rfl rfl⟩

/-- Every rendered field outside query_text appears verbatim between its
fixed flanking text: the raw rule and global values are embedded with no
escaping.  Shared by the quoting claims below. -/
theorem sql_verbatim_fields (a : AlertRule) (g : GlobalConfig)
    (qt : List Char) (sql : String)
    (hfmt : pyFormat g.catalog g.schema a.query_template.data = some qt)
    (hsql : generate_alert_sql a g = some sql) :
    strContains sql ("display_name => '" ++ a.display_name ++ "'") = true
    ∧ strContains sql ("comparison_operator => '" ++ a.comparison_operator ++ "'") = true
    ∧ strContains sql ("empty_result_state => '" ++ a.empty_result_state.getD "UNKNOWN" ++ "'") = true
    ∧ strContains sql ("warehouse_id => " ++ g.warehouse_id ++ ",\n") = true
    ∧ strContains sql ("user_email => " ++ g.user_email ++ ",\n") = true
    ∧ strContains sql ("timezone_id => '" ++ g.timezone_id ++ "'") = true
    ∧ strContains sql ("pause_status => '" ++ g.pause_status ++ "'") = true := by
  have hs := sql_shape a g qt sql hfmt hsql
  refine ⟨?_, ?_, ?_, ?_, ?_, ?_, ?_⟩
  · refine strContains_of_eq
      ("-- " ++ a.description ++ "\n" ++ "SELECT create_alert(\n" ++ "  ")
      _
      (",\n"
        ++ "  " ++ "query_text => '" ++ String.mk (escapeQuotes qt) ++ "'" ++ ",\n"
        ++ "  " ++ "warehouse_id => " ++ g.warehouse_id ++ ",\n"
        ++ "  " ++ "comparison_operator => '" ++ a.comparison_operator ++ "'" ++ ",\n"
        ++ "  " ++ "threshold_value => " ++ a.threshold_value ++ ",\n"
        ++ "  " ++ "empty_result_state => '" ++ a.empty_result_state.getD "UNKNOWN" ++ "'" ++ ",\n"
        ++ "  " ++ "user_email => " ++ g.user_email ++ ",\n"
        ++ "  " ++ "notify_on_ok => " ++ pyBoolLower g.notify_on_ok ++ ",\n"
        ++ "  " ++ "retrigger_seconds => " ++ toString g.retrigger_seconds ++ ",\n"
        ++ "  " ++ "cron_schedule => '" ++ a.cron_schedule.getD (g.cron_schedule.getD "0 0 10 1/7 * ?") ++ "'" ++ ",\n"
        ++ "  " ++ "timezone_id => '" ++ g.timezone_id ++ "'" ++ ",\n"
        ++ "  " ++ "pause_status => '" ++ g.pause_status ++ "'" ++ "\n"
        ++ ") as alert;")
      ?_
    rw [hs]
    simp only [String.append_assoc]
  · refine strContains_of_eq
      ("-- " ++ a.description ++ "\n" ++ "SELECT create_alert(\n"
        ++ "  " ++ "display_name => '" ++ a.display_name ++ "'" ++ ",\n"
        ++ "  " ++ "query_text => '" ++ String.mk (escapeQuotes qt) ++ "'" ++ ",\n"
        ++ "  " ++ "warehouse_id => " ++ g.warehouse_id ++ ",\n"
        ++ "  ")
      _
      (",\n"
        ++ "  " ++ "threshold_value => " ++ a.threshold_value ++ ",\n"
        ++ "  " ++ "empty_result_state => '" ++ a.empty_result_state.getD "UNKNOWN" ++ "'" ++ ",\n"
        ++ "  " ++ "user_email => " ++ g.user_email ++ ",\n"
        ++ "  " ++ "notify_on_ok => " ++ pyBoolLower g.notify_on_ok ++ ",\n"
        ++ "  " ++ "retrigger_seconds => " ++ toString g.retrigger_seconds ++ ",\n"
        ++ "  " ++ "cron_schedule => '" ++ a.cron_schedule.getD (g.cron_schedule.getD "0 0 10 1/7 * ?") ++ "'" ++ ",\n"
        ++ "  " ++ "timezone_id => '" ++ g.timezone_id ++ "'" ++ ",\n"
        ++ "  " ++ "pause_status => '" ++ g.pause_status ++ "'" ++ "\n"
        ++ ") as alert;")
      ?_
    rw [hs]
    simp only [String.append_assoc]
  · refine strContains_of_eq
      ("-- " ++ a.description ++ "\n" ++ "SELECT create_alert(\n"
        ++ "  " ++ "display_name => '" ++ a.display_name ++ "'" ++ ",\n"
        ++ "  " ++ "query_text => '" ++ String.mk (escapeQuotes qt) ++ "'" ++ ",\n"
        ++ "  " ++ "warehouse_id => " ++ g.warehouse_id ++ ",\n"
        ++ "  " ++ "comparison_operator => '" ++ a.comparison_operator ++ "'" ++ ",\n"
        ++ "  " ++ "threshold_value => " ++ a.threshold_value ++ ",\n"
        ++ "  ")
      _
      (",\n"
        ++ "  " ++ "user_email => " ++ g.user_email ++ ",\n"
        ++ "  " ++ "notify_on_ok => " ++ pyBoolLower g.notify_on_ok ++ ",\n"
        ++ "  " ++ "retrigger_seconds => " ++ toString g.retrigger_seconds ++ ",\n"
        ++ "  " ++ "cron_schedule => '" ++ a.cron_schedule.getD (g.cron_schedule.getD "0 0 10 1/7 * ?") ++ "'" ++ ",\n"
        ++ "  " ++ "timezone_id => '" ++ g.timezone_id ++ "'" ++ ",\n"
        ++ "  " ++ "pause_status => '" ++ g.pause_status ++ "'" ++ "\n"
        ++ ") as alert;")
      ?_
    rw [hs]
    simp only [String.append_assoc]
  · refine strContains_of_eq
      ("-- " ++ a.description ++ "\n" ++ "SELECT create_alert(\n"
        ++ "  " ++ "display_name => '" ++ a.display_name ++ "'" ++ ",\n"
        ++ "  " ++ "query_text => '" ++ String.mk (escapeQuotes qt) ++ "'" ++ ",\n"
        ++ "  ")
      _
      ("  " ++ "comparison_operator => '" ++ a.comparison_operator ++ "'" ++ ",\n"
        ++ "  " ++ "threshold_value => " ++ a.threshold_value ++ ",\n"
        ++ "  " ++ "empty_result_state => '" ++ a.empty_result_state.getD "UNKNOWN" ++ "'" ++ ",\n"
        ++ "  " ++ "user_email => " ++ g.user_email ++ ",\n"
        ++ "  " ++ "notify_on_ok => " ++ pyBoolLower g.notify_on_ok ++ ",\n"
        ++ "  " ++ "retrigger_seconds => " ++ toString g.retrigger_seconds ++ ",\n"
        ++ "  " ++ "cron_schedule => '" ++ a.cron_schedule.getD (g.cron_schedule.getD "0 0 10 1/7 * ?") ++ "'" ++ ",\n"
        ++ "  " ++ "timezone_id => '" ++ g.timezone_id ++ "'" ++ ",\n"
        ++ "  " ++ "pause_status => '" ++ g.pause_status ++ "'" ++ "\n"
        ++ ") as alert;")
      ?_
    rw [hs]
    simp only [String.append_assoc]
  · refine strContains_of_eq
      ("-- " ++ a.description ++ "\n" ++ "SELECT create_alert(\n"
        ++ "  " ++ "display_name => '" ++ a.display_name ++ "'" ++ ",\n"
        ++ "  " ++ "query_text => '" ++ String.mk (escapeQuotes qt) ++ "'" ++ ",\n"
        ++ "  " ++ "warehouse_id => " ++ g.warehouse_id ++ ",\n"
        ++ "  " ++ "comparison_operator => '" ++ a.comparison_operator ++ "'" ++ ",\n"
        ++ "  " ++ "threshold_value => " ++ a.threshold_value ++ ",\n"
        ++ "  " ++ "empty_result_state => '" ++ a.empty_result_state.getD "UNKNOWN" ++ "'" ++ ",\n"
        ++ "  ")
      _
      ("  " ++ "notify_on_ok => " ++ pyBoolLower g.notify_on_ok ++ ",\n"
        ++ "  " ++ "retrigger_seconds => " ++ toString g.retrigger_seconds ++ ",\n"
        ++ "  " ++ "cron_schedule => '" ++ a.cron_schedule.getD (g.cron_schedule.getD "0 0 10 1/7 * ?") ++ "'" ++ ",\n"
        ++ "  " ++ "timezone_id => '" ++ g.timezone_id ++ "'" ++ ",\n"
        ++ "  " ++ "pause_status => '" ++ g.pause_status ++ "'" ++ "\n"
        ++ ") as alert;")
      ?_
    rw [hs]
    simp only [String.append_assoc]
  · refine strContains_of_eq
      ("-- " ++ a.description ++ "\n" ++ "SELECT create_alert(\n"
        ++ "  " ++ "display_name => '" ++ a.display_name ++ "'" ++ ",\n"
        ++ "  " ++ "query_text => '" ++ String.mk (escapeQuotes qt) ++ "'" ++ ",\n"
        ++ "  " ++ "warehouse_id => " ++ g.warehouse_id ++ ",\n"
        ++ "  " ++ "comparison_operator => '" ++ a.comparison_operator ++ "'" ++ ",\n"
        ++ "  " ++ "threshold_value => " ++ a.threshold_value ++ ",\n"
        ++ "  " ++ "empty_result_state => '" ++ a.empty_result_state.getD "UNKNOWN" ++ "'" ++ ",\n"
        ++ "  " ++ "user_email => " ++ g.user_email ++ ",\n"
        ++ "  " ++ "notify_on_ok => " ++ pyBoolLower g.notify_on_ok ++ ",\n"
        ++ "  " ++ "retrigger_seconds => " ++ toString g.retrigger_seconds ++ ",\n"
        ++ "  " ++ "cron_schedule => '" ++ a.cron_schedule.getD (g.cron_schedule.getD "0 0 10 1/7 * ?") ++ "'" ++ ",\n"
        ++ "  ")
      _
      (",\n"
        ++ "  " ++ "pause_status => '" ++ g.pause_status ++ "'" ++ "\n"
        ++ ") as alert;")
      ?_
    rw [hs]
    simp only [String.append_assoc]
  · refine strContains_of_eq
      ("-- " ++ a.description ++ "\n" ++ "SELECT create_alert(\n"
        ++ "  " ++ "display_name => '" ++ a.display_name ++ "'" ++ ",\n"
        ++ "  " ++ "query_text => '" ++ String.mk (escapeQuotes qt) ++ "'" ++ ",\n"
        ++ "  " ++ "warehouse_id => " ++ g.warehouse_id ++ ",\n"
        ++ "  " ++ "comparison_operator => '" ++ a.comparison_operator ++ "'" ++ ",\n"
        ++ "  " ++ "threshold_value => " ++ a.threshold_value ++ ",\n"
        ++ "  " ++ "empty_result_state => '" ++ a.empty_result_state.getD "UNKNOWN" ++ "'" ++ ",\n"
        ++ "  " ++ "user_email => " ++ g.user_email ++ ",\n"
        ++ "  " ++ "notify_on_ok => " ++ pyBoolLower g.notify_on_ok ++ ",\n"
        ++ "  " ++ "retrigger_seconds => " ++ toString g.retrigger_seconds ++ ",\n"
        ++ "  " ++ "cron_schedule => '" ++ a.cron_schedule.getD (g.cron_schedule.getD "0 0 10 1/7 * ?") ++ "'" ++ ",\n"
        ++ "  " ++ "timezone_id => '" ++ g.timezone_id ++ "'" ++ ",\n"
        ++ "  ")
      _
      ("\n" ++ ") as alert;")
      ?_
    rw [hs]
    simp only [String.append_assoc]

/-- Claim C9: `user_email` is interpolated with no surrounding single
quotes (its flanking text in the statement is `user_email => ` and a bare
comma), while display_name, timezone_id and pause_status values sit inside
single-quoted literals. -/
theorem claim_C9_user_email_unquoted (a : AlertRule) (g : GlobalConfig)
    (qt : List Char) (sql : String)
    (hfmt : pyFormat g.catalog g.schema a.query_template.data = some qt)
    (hsql : generate_alert_sql a g = some sql) :
    strContains sql ("user_email => " ++ g.user_email ++ ",\n") = true
    ∧ strContains sql ("display_name => '" ++ a.display_name ++ "'") = true
    ∧ strContains sql ("timezone_id => '" ++ g.timezone_id ++ "'") = true
    ∧ strContains sql ("pause_status => '" ++ g.pause_status ++ "'") = true := by
  obtain ⟨h1, _, _, _, h5, h6, h7⟩ := sql_verbatim_fields a g qt sql hfmt hsql
  exact ⟨h5, h1, h6, h7⟩

/-- Witness for claim C9 at the specification's concrete scenario. -/
theorem claim_C9_user_email_unquoted_witness :
    strContains exSql ("user_email => " ++ exGlobal.user_email ++ ",\n") = true
    ∧ strContains exSql ("display_name => '" ++ exRule.display_name ++ "'") = true
    ∧ strContains exSql ("timezone_id => '" ++ exGlobal.timezone_id ++ "'") = true
    ∧ strContains exSql ("pause_status => '" ++ exGlobal.pause_status ++ "'") = true :=
  claim_C9_user_email_unquoted exRule exGlobal
    "SELECT * FROM sec.detect.t".data exSql (by decide) (by decide)

/-- Counterexample to claim C6 as stated: `catalog` is a global field, yet
a single quote in it is NOT embedded verbatim — it is doubled, because the
catalog value is substituted into query_text before the escaping step.
With catalog `a'b` the rendered statement does not contain `a'b` at all;
it contains the doubled `a''b`. -/
theorem claim_C6_counterexample :
    sqChar ∈ cexGlobal.catalog.data
    ∧ generate_alert_sql cexRule cexGlobal = some cexSql
    ∧ strContains cexSql cexGlobal.catalog = false
    ∧ strContains cexSql "a''b" = true := by decide

/-- Claim C6 (amended): no escaping is performed on any rendered field
other than query_text — a single quote in display_name,
comparison_operator, empty_result_state, or any directly interpolated
global field (warehouse_id, user_email, timezone_id, pause_status) is
embedded verbatim; catalog and schema are excluded because they reach the
statement only through query_text, where quotes are doubled. -/
theorem claim_C6_no_escaping_outside_query_text (a : AlertRule)
    (g : GlobalConfig) (qt : List Char) (sql : String)
    (hfmt : pyFormat g.catalog g.schema a.query_template.data = some qt)
    (hsql : generate_alert_sql a g = some sql) :
    strContains sql ("display_name => '" ++ a.display_name ++ "'") = true
    ∧ strContains sql ("comparison_operator => '" ++ a.comparison_operator ++ "'") = true
    ∧ strContains sql ("empty_result_state => '" ++ a.empty_result_state.getD "UNKNOWN" ++ "'") = true
    ∧ strContains sql ("warehouse_id => " ++ g.warehouse_id ++ ",\n") = true
    ∧ strContains sql ("user_email => " ++ g.user_email ++ ",\n") = true
    ∧ strContains sql ("timezone_id => '" ++ g.timezone_id ++ "'") = true
    ∧ strContains sql ("pause_status => '" ++ g.pause_status ++ "'") = true :=
  sql_verbatim_fields a g qt sql hfmt hsql

/-- Witness for the amended claim C6: a quote inside display_name is
embedded verbatim (the statement contains `n'x` undoubled). -/
theorem claim_C6_no_escaping_witness :
    sqChar ∈ vRule.display_name.data
    ∧ strContains vSql ("display_name => '" ++ vRule.display_name ++ "'") = true :=
  ⟨by decide,
   (claim_C6_no_escaping_outside_query_text vRule exGlobal
      "SELECT * FROM sec.detect.t".data vSql (by decide) (by decide)).1⟩

/-- The source loop produces exactly the per-alert blocks of `renderEach`:
statement, blank line, separator, blank line, per alert, in order. -/
theorem renderLoop_eq_blocks (g : GlobalConfig)
    (l : List (String × AlertRule)) :
    renderLoop g l = (renderEach g l).map blocks := by
  induction l with
  | nil => simp [renderLoop, renderEach, blocks]
  | cons p rest ih =>
      obtain ⟨nm, a⟩ := p
      rw [renderLoop, renderEach]
      cases hA : generate_alert_sql a g with
      | none => simp
      | some sql =>
          rw [ih]
          cases hR : renderEach g rest with
          | none => simp
          | some ss => simp [blocks]

/-- A successful `renderEach` yields one statement per alert. -/
theorem renderEach_length (g : GlobalConfig) :
    ∀ (l : List (String × AlertRule)) (ss : List String),
      renderEach g l = some ss → ss.length = l.length := by
  intro l
  induction l with
  | nil =>
      intro ss h
      simp [renderEach] at h
      simp [← h]
  | cons p rest ih =>
      intro ss h
      rw [renderEach] at h
      cases hA : generate_alert_sql p.2 g with
      | none => rw [hA] at h; simp at h
      | some sql =>
          rw [hA] at h
          cases hR : renderEach g rest with
          | none => rw [hR] at h; simp at h
          | some ss2 =>
              rw [hR] at h
              simp at h
              rw [← h]
              simp [ih ss2 hR]

/-- Claim C5: when every alert renders, the batch document is the two-line
header comment, a blank line and a separator, followed by one rendered
statement per `alerts` entry in mapping order, each followed by a blank
line, the separator token, and a blank line, all joined by newlines; the
number of statements equals the number of alerts. -/
theorem claim_C5_batch_structure (rules : Rules) (ss : List String)
    (h : renderEach rules.global rules.alerts = some ss) :
    generate_all_alerts_sql rules
      = some (String.intercalate "\n" (headerParts ++ blocks ss))
    ∧ ss.length = rules.alerts.length := by
  constructor
  · unfold generate_all_alerts_sql
    rw [renderLoop_eq_blocks, h]
    simp
  · exact renderEach_length rules.global rules.alerts ss h

/-- Witness for claim C5 at the one-alert configuration. -/
theorem claim_C5_batch_structure_witness :
    renderEach exRules.global exRules.alerts = some [exSql]
    ∧ generate_all_alerts_sql exRules
        = some (String.intercalate "\n" (headerParts ++ blocks [exSql]))
    ∧ [exSql].length = exRules.alerts.length :=
  ⟨by decide,
   (claim_C5_batch_structure exRules [exSql] (by decide)).1,
   (claim_C5_batch_structure exRules [exSql] (by decide)).2⟩

/-- Claim C10: with an empty `alerts` mapping the batch renderer succeeds
and returns exactly the header block — the two header comment lines, a
blank line, one separator, and a trailing newline. -/
theorem claim_C10_empty_config (rules : Rules) (h : rules.alerts = []) :
    generate_all_alerts_sql rules
      = some "-- Databricks Security Detection Alerts\n-- Generated from rules.yml\n\n-- COMMAND ----------\n" := by
  unfold generate_all_alerts_sql
  rw [h]
  rfl

/-- Witness for claim C10 at the concrete empty configuration. -/
theorem claim_C10_empty_config_witness :
    generate_all_alerts_sql emptyRules
      = some "-- Databricks Security Detection Alerts\n-- Generated from rules.yml\n\n-- COMMAND ----------\n" :=
  claim_C10_empty_config emptyRules rfl

/-- Claim C7: the run is atomic with respect to the output file — when the
configuration fails to load (missing file or parse error) or any alert
fails to render, no output file is written. -/
theorem claim_C7_atomic_failure (load : LoadResult)
    (h : load = LoadResult.fileNotFound
      ∨ (∃ msg, load = LoadResult.parseError msg)
      ∨ (∃ rules, load = LoadResult.ok rules
          ∧ generate_all_alerts_sql rules = none)) :
    (mainRun load).written = none := by
  rcases h with h | ⟨msg, h⟩ | ⟨rules, h, hfail⟩
  · subst h; rfl
  · subst h; rfl
  · subst h; simp [mainRun, hfail]

/-- Witness for claim C7: a configuration whose single alert fails to
render leads to a run that writes nothing. -/
theorem claim_C7_atomic_failure_witness :
    generate_all_alerts_sql failRules = none
    ∧ (mainRun (LoadResult.ok failRules)).written = none :=
  ⟨by decide,
   claim_C7_atomic_failure (LoadResult.ok failRules)
     (Or.inr (Or.inr ⟨failRules, rfl, by decide⟩))⟩

/-- Claim C8: the generator is deterministic — running it again on the
same input produces a byte-identical document and run outcome. -/
theorem claim_C8_deterministic (r1 r2 : Rules) (h : r1 = r2) :
    generate_all_alerts_sql r1 = generate_all_alerts_sql r2
    ∧ mainRun (LoadResult.ok r1) = mainRun (LoadResult.ok r2) := by
  subst h
  exact ⟨rfl, rfl⟩

/-- Witness for claim C8 at the concrete configuration. -/
theorem claim_C8_deterministic_witness :
    generate_all_alerts_sql exRules = generate_all_alerts_sql exRules
    ∧ mainRun (LoadResult.ok exRules) = mainRun (LoadResult.ok exRules) :=
  claim_C8_deterministic exRules exRules rfl
